import Mathlib

/-!
# AutoBetTracker — verification of the grading / Kelly-staking pipeline

Shallow embedding of the core of the repository:

* `src/kelly_sizing.py` — `kelly_fraction`, `kelly_units`, `grade_adjusted_units`,
  `american_to_decimal`, `implied_probability`, `edge_pct`;
* `src/decision_loop.py` — `grade_pick`, `log_signal_performance`,
  `update_grade_tracker`, `log_bet`, the per-grade unit computation inside
  `run_decision_loop`, and `calculate_kelly_units` / `update_tracker_units`;
* `src/analyze_signals.py` — `load_grade_results` and `analyze_signals`.

Python floats are modelled as exact rationals (`ℚ`); `round(x, 2)` is modelled
as exact round-half-to-even at two decimals (`round2`).  Fallible Python
conversions (`float(...)` on an arbitrary value) are modelled by `Option ℚ`
carried on the value itself (`PyVal`), since the checks in the source only
branch on success/failure and on the parsed number.
-/

namespace AutoBetTracker

/-- Model of Python `round(y)` to an integer: round half to even on the exact
rational value. -/
def roundHalfEven (y : ℚ) : ℤ :=
  let n := ⌊y⌋
  let r := y - n
  if r < 1/2 then n
  else if 1/2 < r then n + 1
  else if 2 ∣ n then n else n + 1

/-- Model of Python `round(x, 2)`: round half to even at two decimal places. -/
def round2 (x : ℚ) : ℚ := (roundHalfEven (x * 100) : ℚ) / 100

/-- A value stored in one of the loosely-typed Python dicts of the source.
`vNone` is Python `None`; `vNum q` a number; `vStr s p` a string `s` whose
Python `float(s)` parse outcome is `p` (`none` when `float` raises). -/
inductive PyVal where
  | vNone : PyVal
  | vNum : ℚ → PyVal
  | vStr : String → Option ℚ → PyVal
deriving DecidableEq

/-- Python truthiness of a `PyVal` (`None`, `0` and `""` are falsy). -/
def pyTruthy : PyVal → Bool
  | .vNone => false
  | .vNum q => decide (q ≠ 0)
  | .vStr s _ => decide (s ≠ "")

/-- Python `float(v)`: `none` models a raised `ValueError`/`TypeError`. -/
def pyFloat : PyVal → Option ℚ
  | .vNone => none
  | .vNum q => some q
  | .vStr _ p => p

/-- Character-wise map on a string. -/
def mapStr (f : Char → Char) (s : String) : String := ⟨s.data.map f⟩

/-- Model of Python `str.upper()` (ASCII, which is all the source compares). -/
def pyUpper (s : String) : String := mapStr Char.toUpper s

/-- Model of Python `str.lower()` (ASCII, which is all the source compares). -/
def pyLower (s : String) : String := mapStr Char.toLower s

/-- Model of Python `str.strip()`: drop whitespace from both ends. -/
def pyStrip (s : String) : String :=
  ⟨((s.data.dropWhile Char.isWhitespace).reverse.dropWhile Char.isWhitespace).reverse⟩

/-! ## `src/kelly_sizing.py` -/

/-- `kelly_fraction(model_prob, odds, fraction)` from `src/kelly_sizing.py`. -/
def kelly_fraction (model_prob odds fraction : ℚ) : ℚ :=
  if model_prob ≤ 0 ∨ 1 ≤ model_prob ∨ odds ≤ 1 then 0
  else
    let b := odds - 1
    let q := 1 - model_prob
    let kelly := (model_prob * b - q) / b
    if kelly ≤ 0 then 0
    else min (fraction * kelly) 1

/-- `kelly_units(model_prob, odds, bankroll, unit_size, max_bet, fraction)`
from `src/kelly_sizing.py`. -/
def kelly_units (model_prob odds bankroll unit_size max_bet fraction : ℚ) : ℚ :=
  if bankroll ≤ 0 ∨ unit_size ≤ 0 then 0
  else
    let kelly_pct := kelly_fraction model_prob odds fraction
    let bet_pct := min kelly_pct max_bet
    let bet_dollars := bet_pct * bankroll
    let units := round2 (bet_dollars / unit_size)
    max units 0

/-- `grade_adjusted_units(grade, model_prob, odds, bankroll, unit_size,
max_bet, fraction)` from `src/kelly_sizing.py`.  Note the source applies no
floor here: A-grade returns the raw `kelly_units`, B-grade halves and
re-rounds it, C-grade returns 0. -/
def grade_adjusted_units (grade : String)
    (model_prob odds bankroll unit_size max_bet fraction : ℚ) : ℚ :=
  if pyUpper grade = "C" then 0
  else
    let units := kelly_units model_prob odds bankroll unit_size max_bet fraction
    if pyUpper grade = "B" then round2 (units * (1/2)) else units

/-- `american_to_decimal(american)` from `src/kelly_sizing.py`. -/
def american_to_decimal (american : ℤ) : ℚ :=
  if american > 0 then 1 + (american : ℚ) / 100
  else 1 + 100 / |(american : ℚ)|

/-- `implied_probability(odds)` from `src/kelly_sizing.py`: the division
`1/odds` is guarded by `odds <= 1`. -/
def implied_probability (odds : ℚ) : ℚ :=
  if odds ≤ 1 then 1 else 1 / odds

/-- `edge_pct(model_prob, odds)` from `src/kelly_sizing.py`. -/
def edge_pct (model_prob odds : ℚ) : ℚ :=
  round2 ((model_prob - implied_probability odds) * 100)

/-! ## Data model for `src/decision_loop.py`

`run_pre_bet_analysis` always populates the keys `date`, `game`, `pick_desc`,
`edge`, `grade`, `signals` of the analysis dict, so they are plain fields
here; `edge` may still be a non-numeric string such as `"N/A"`.  Only the
signal-bundle entries the graded checks and the logging code read are
modelled; an absent dict key is `Option.none`. -/

/-- The `line_movement` sub-dict of a signal bundle (`spread_current` /
`spread_open` as read by `grade_pick` and `log_signal_performance`). -/
structure LineMovement where
  spread_current : Option PyVal
  spread_open : Option PyVal
deriving DecidableEq

/-- The signal bundle produced by `SignalFetcher.get_game_signals`. -/
structure SignalBundle where
  line_movement : LineMovement
  bet_vs_money_divergence : Option String
  sharp_signals : List String
  public_perc_divergence : Option PyVal
  public_percent : Option PyVal
deriving DecidableEq

/-- The analysis dict built by `run_pre_bet_analysis` (the fields used by
grading, ledger writes and stake sizing). -/
structure Analysis where
  date : String
  game : String
  pick_desc : String
  edge : PyVal
  grade : String
  signals : SignalBundle
deriving DecidableEq

/-! ## `grade_pick` (`src/decision_loop.py`, lines 197-264) -/

/-- Check 1 of `grade_pick`: `float(analysis['edge']) >= 3`, fail-open on a
parse error.  Returns (does this check score a point?, reasoning string). -/
def check_edge (a : Analysis) : Bool × String :=
  match pyFloat a.edge with
  | some e =>
      if 3 ≤ e then (true, "✓ Model edge significant")
      else (false, "✗ Model edge weak (< 3%)")
  | none => (false, "? Model edge unknown")

/-- Check 2 of `grade_pick`: both spread fields truthy, then both must parse
as floats; scores on presence, not direction. -/
def check_line_movement (lm : LineMovement) : Bool × String :=
  match lm.spread_current, lm.spread_open with
  | some c, some o =>
      if pyTruthy c && pyTruthy o then
        match pyFloat c, pyFloat o with
        | some _, some _ => (true, "✓ Line movement tracked")
        | _, _ => (false, "? Line movement unclear")
      else (false, "? Line movement data unavailable")
  | _, _ => (false, "? Line movement data unavailable")

/-- Check 3 of `grade_pick`: the `bet_vs_money_divergence` classification. -/
def check_sharp (divergence : Option String) : Bool × String :=
  if divergence = some "Sharp Action" then (true, "✓ Sharp money aligned")
  else if divergence = some "Public Heavy" then (false, "✗ Public heavy (consider fade)")
  else (false, "~ No sharp signal")

/-- Python `str(...)` of a list of plain strings, as tested by
`'conflict' in str(sharp_signals).lower()` in check 4. -/
def pyListStr (l : List String) : String :=
  "[" ++ String.intercalate ", " (l.map (fun s => "'" ++ s ++ "'")) ++ "]"

/-- `needle` occurs as a contiguous substring of `hay` (on character lists). -/
def listInfix (needle : List Char) : List Char → Bool
  | [] => needle.isEmpty
  | c :: rest => needle.isPrefixOf (c :: rest) || listInfix needle rest

/-- Substring test used to model Python's `in` on strings. -/
def strContains (needle hay : String) : Bool :=
  listInfix needle.toList hay.toList

/-- Check 4 of `grade_pick`: pass unless the sharp-signal list is non-empty
and its `str(...)` rendering contains "conflict" (case-insensitive). -/
def check_conflict (tags : List String) : Bool × String :=
  if tags.isEmpty || !(strContains "conflict" (pyLower (pyListStr tags))) then
    (true, "✓ No conflicting signals")
  else (false, "✗ Conflicting signals present")

/-- The score accumulated by `grade_pick`: one point per passing check. -/
def scoreOf (b1 b2 b3 b4 : Bool) : ℕ :=
  b1.toNat + b2.toNat + b3.toNat + b4.toNat

/-- The grade assignment at the end of `grade_pick`. -/
def gradeOf (score : ℕ) : String :=
  if 4 ≤ score then "A" else if 3 ≤ score then "B" else "C"

/-- The outputs `grade_pick` stores on the analysis dict
(`grade`, `grade_score`, `grade_reasoning`). -/
structure GradeResult where
  grade : String
  score : ℕ
  reasons : List String
deriving DecidableEq

/-- `grade_pick(analysis)` from `src/decision_loop.py`: four checks in fixed
order, score = number of passing checks, grade from the score. -/
def grade_pick (a : Analysis) : GradeResult :=
  let c1 := check_edge a
  let c2 := check_line_movement a.signals.line_movement
  let c3 := check_sharp a.signals.bet_vs_money_divergence
  let c4 := check_conflict a.signals.sharp_signals
  let score := scoreOf c1.1 c2.1 c3.1 c4.1
  ⟨gradeOf score, score, [c1.2, c2.2, c3.2, c4.2]⟩

/-! ## Ledger writes (`log_signal_performance`, `update_grade_tracker`,
`log_bet` in `src/decision_loop.py`) -/

/-- One row of `signal_performance.csv`. -/
structure SignalRow where
  date : String
  game : String
  bet : String
  signal_name : String
  signal_direction : String
  bet_result : String
  notes : String
deriving DecidableEq

/-- One row of `grade_performance.csv`, written by `update_grade_tracker`. -/
structure GradeRow where
  date : String
  game : String
  bet : String
  grade : String
  units : ℚ
  result : String
  profit_loss : ℚ
deriving DecidableEq

/-- MODEL EDGE direction in `log_signal_performance`:
`float(analysis.get('edge', 0))`, `'Unknown'` on a parse error. -/
def modelEdgeDirection (a : Analysis) : String :=
  match pyFloat a.edge with
  | some e => if 3 ≤ e then "Edge >= 3%" else "Edge < 3%"
  | none => "Unknown"

/-- LINE MOVEMENT direction in `log_signal_performance`:
`float(line_mov.get('spread_current', 0))` vs the opener — an absent key
defaults to `0`, an unparseable value degrades to `'Unknown'`. -/
def lineMovDirection (lm : LineMovement) : String :=
  let cur : Option ℚ := match lm.spread_current with
    | none => some 0
    | some v => pyFloat v
  let opn : Option ℚ := match lm.spread_open with
    | none => some 0
    | some v => pyFloat v
  match cur, opn with
  | some c, some o =>
      if o < c then "Moved against"
      else if c < o then "Moved toward"
      else "No movement"
  | _, _ => "Unknown"

/-- SHARP MONEY direction in `log_signal_performance`
(`signals.get('bet_vs_money_divergence', '')`). -/
def sharpDirection (divergence : Option String) : String :=
  match divergence with
  | none => "Unknown"
  | some s =>
      if s = "Sharp Action" then "Sharp Action"
      else if s = "Public Heavy" then "Public Heavy"
      else if s ≠ "" then s
      else "Unknown"

/-- PUBLIC% DIVERGENCE direction in `log_signal_performance`: try
`public_perc_divergence`, fall back to `public_percent`; a number is bucketed
Large/Moderate/Small, a non-empty string passes through, anything else is
`'Unknown'`. -/
def pubDivDirection (sb : SignalBundle) : String :=
  let first : Option PyVal := match sb.public_perc_divergence with
    | some PyVal.vNone => none
    | x => x
  let resolved : Option PyVal := match first with
    | some v => some v
    | none => sb.public_percent
  match resolved with
  | some (PyVal.vNum q) =>
      if 15 ≤ q then "Large" else if 5 ≤ q then "Moderate" else "Small/None"
  | some (PyVal.vStr s _) => if s ≠ "" then s else "Unknown"
  | some PyVal.vNone => "Unknown"
  | none => "Unknown"

/-- `log_signal_performance(analysis, bet_result)` from
`src/decision_loop.py`: the four rows appended to `signal_performance.csv`,
in source order. -/
def log_signal_performance (a : Analysis) (bet_result : String) : List SignalRow :=
  [ ⟨a.date, a.game, a.pick_desc, "model_edge", modelEdgeDirection a,
      bet_result, a.grade⟩,
    ⟨a.date, a.game, a.pick_desc, "line_movement",
      lineMovDirection a.signals.line_movement, bet_result, a.grade⟩,
    ⟨a.date, a.game, a.pick_desc, "sharp_money",
      sharpDirection a.signals.bet_vs_money_divergence, bet_result, a.grade⟩,
    ⟨a.date, a.game, a.pick_desc, "public_perc_divergence",
      pubDivDirection a.signals, bet_result, a.grade⟩ ]

/-- `update_grade_tracker(analysis, units)` from `src/decision_loop.py`:
the single row appended to `grade_performance.csv`. -/
def update_grade_tracker (a : Analysis) (units : ℚ) : GradeRow :=
  ⟨a.date, a.game, a.pick_desc, a.grade, units, "pending", 0⟩

/-- `log_bet(analysis, units)` from `src/decision_loop.py`: one grade row
plus the four signal rows with `bet_result="pending"` (the markdown bet-log
entry is presentation only and is not modelled). -/
def log_bet (a : Analysis) (units : ℚ) : GradeRow × List SignalRow :=
  (update_grade_tracker a units, log_signal_performance a "pending")

/-! ## `src/analyze_signals.py` -/

/-- The (date, game, bet) join key of a signal row. -/
def sigKey (r : SignalRow) : String × String × String := (r.date, r.game, r.bet)

/-- The (date, game, bet) join key of a grade row. -/
def gradeKey (g : GradeRow) : String × String × String := (g.date, g.game, g.bet)

/-- `load_grade_results()` from `src/analyze_signals.py`: one dict entry per
grade row, keyed by (date, game, bet), value `row['result'].strip().lower()`. -/
def load_grade_results (rows : List GradeRow) : List ((String × String × String) × String) :=
  rows.map (fun g => (gradeKey g, pyLower (pyStrip g.result)))

/-- Python dict lookup over entries inserted in list order (a later insert
for the same key wins, as in `results[k] = ...`). -/
def dictGet (entries : List ((String × String × String) × String))
    (k : String × String × String) : Option String :=
  (entries.reverse.find? (fun p => p.1 = k)).map (·.2)

/-- Result resolution in the `analyze_signals` loop: keep the row's own
`bet_result` unless it is empty or `"pending"`, in which case fall back to
the grade-results dict (default `"pending"`). -/
def resolve_result (gradeResults : List ((String × String × String) × String))
    (r : SignalRow) : String :=
  if r.bet_result = "" ∨ r.bet_result = "pending" then
    (dictGet gradeResults (sigKey r)).getD "pending"
  else r.bet_result

/-- A row is counted by `analyze_signals` only when its resolved result is
`win` or `loss`. -/
def isSettled (gradeResults : List ((String × String × String) × String))
    (r : SignalRow) : Bool :=
  resolve_result gradeResults r == "win" || resolve_result gradeResults r == "loss"

/-- `total_seen[(sig, dir)]` accumulated by the `analyze_signals` loop:
the number of rows of that signal/direction whose resolved result is
`win` or `loss`. -/
def total_seen (gradeResults : List ((String × String × String) × String))
    (rows : List SignalRow) (sig dir : String) : ℕ :=
  (rows.filter (fun r =>
    r.signal_name == sig && r.signal_direction == dir && isSettled gradeResults r)).length

/-- `total_wins[(sig, dir)]` accumulated by the `analyze_signals` loop. -/
def total_wins (gradeResults : List ((String × String × String) × String))
    (rows : List SignalRow) (sig dir : String) : ℕ :=
  (rows.filter (fun r =>
    r.signal_name == sig && r.signal_direction == dir &&
      (resolve_result gradeResults r == "win"))).length

/-- The win rate printed by `analyze_signals`:
`100.0 * wins / total if total else 0`. -/
def win_rate (gradeResults : List ((String × String × String) × String))
    (rows : List SignalRow) (sig dir : String) : ℚ :=
  if total_seen gradeResults rows sig dir = 0 then 0
  else 100 * (total_wins gradeResults rows sig dir : ℚ) /
    (total_seen gradeResults rows sig dir : ℚ)

/-! ## Stake computation inside `run_decision_loop` and
`calculate_kelly_units` (`src/decision_loop.py`) -/

/-- The per-grade unit computation of `run_decision_loop` (lines 386-387,
403-404 and 412), given the already-parsed model probability and decimal
odds: A-picks get `max(grade_adjusted_units('A', ...), 0.5)`, B-picks
`max(grade_adjusted_units('B', ...), 0.25)`, C-picks are logged with 0
units.  `KELLY_FRACTION = 0.1` and the default `max_bet = 0.05` are fixed by
the source. -/
def decision_units (grade : String) (prob odds bankroll unit_size : ℚ) : ℚ :=
  if grade = "A" then
    max (grade_adjusted_units "A" prob odds bankroll unit_size (1/20) (1/10)) (1/2)
  else if grade = "B" then
    max (grade_adjusted_units "B" prob odds bankroll unit_size (1/20) (1/10)) (1/4)
  else 0

/-- The odds field of a pick row, carrying the outcomes of the two Python
conversions the source attempts on it: `float(odds_raw)` and
`int(str(odds_raw).replace('+', ''))`. -/
structure OddsField where
  asFloat : Option ℚ
  asAmerican : Option ℤ
deriving DecidableEq

/-- Decimal odds as parsed in the A/B loops of `run_decision_loop`:
`american_to_decimal(int(str(odds_raw).replace('+','')))` with fallback
1.91; the `.get('odds', '-110')` default parses to
`american_to_decimal(-110)`. -/
def loop_dec_odds (odds : Option OddsField) : ℚ :=
  match odds with
  | none => american_to_decimal (-110)
  | some f =>
      match f.asAmerican with
      | some n => american_to_decimal n
      | none => 191/100

/-- Decimal odds as parsed in `calculate_kelly_units`: `float(odds_raw)`
first, then the American conversion, then 1.91; the `.get('odds', '1.91')`
default parses to 1.91. -/
def calc_dec_odds (odds : Option OddsField) : ℚ :=
  match odds with
  | none => 191/100
  | some f =>
      match f.asFloat with
      | some q => q
      | none =>
          match f.asAmerican with
          | some n => american_to_decimal n
          | none => 191/100

/-- Model probability reconstructed in the A loop of `run_decision_loop`:
`float(a['edge'])/100 + 1/dec_odds`, fallback 0.55. -/
def loop_prob (edge : PyVal) (dec_odds : ℚ) : ℚ :=
  match pyFloat edge with
  | some e => e / 100 + 1 / dec_odds
  | none => 11/20

/-- Model probability reconstructed in `calculate_kelly_units`:
`float(pick.get('edge') or pick.get('edge_pct', 0))/100 + 1/dec_odds`
(a falsy edge falls back to `edge_pct`, absent on an analysis dict, hence 0),
fallback 0.55. -/
def calc_prob (edge : PyVal) (dec_odds : ℚ) : ℚ :=
  match (if pyTruthy edge then pyFloat edge else some 0) with
  | some e => e / 100 + 1 / dec_odds
  | none => 11/20

/-- The units `run_decision_loop` passes to `log_bet` for an A-grade pick
with the given odds and edge fields (bankroll/unit from the environment,
defaults 5000/100). -/
def loop_units_A (odds : Option OddsField) (edge : PyVal)
    (bankroll unit_size : ℚ) : ℚ :=
  let dec := loop_dec_odds odds
  decision_units "A" (loop_prob edge dec) dec bankroll unit_size

/-- `calculate_kelly_units(pick, grade)` from `src/decision_loop.py`
(lines 423-458), used by `update_tracker_units` to patch the `stake` field of
the upstream source rows.  Note it applies neither the `max_bet` cap nor the
intermediate rounding of `kelly_units`. -/
def calculate_kelly_units (odds : Option OddsField) (edge : PyVal)
    (grade : String) (bankroll unit_size : ℚ) : ℚ :=
  let dec := calc_dec_odds odds
  let prob := calc_prob edge dec
  let kf := kelly_fraction prob dec (1/10)
  let ku := kf * (bankroll / unit_size)
  let units :=
    if grade = "A" then max ku (1/2)
    else if grade = "B" then max (ku * (1/2)) (1/4)
    else 0
  round2 units

/-! ## Theorems -/

/-- The grade mapping at the end of `grade_pick`, for any four check
outcomes: the score is at most 4 and the A/B/C branches are equivalent to
`score ≥ 4`, `score = 3`, `score ≤ 2`. -/
theorem gradeOf_scoreOf_spec (b1 b2 b3 b4 : Bool) :
    scoreOf b1 b2 b3 b4 ≤ 4 ∧
    (gradeOf (scoreOf b1 b2 b3 b4) = "A" ↔ 4 ≤ scoreOf b1 b2 b3 b4) ∧
    (gradeOf (scoreOf b1 b2 b3 b4) = "B" ↔ scoreOf b1 b2 b3 b4 = 3) ∧
    (gradeOf (scoreOf b1 b2 b3 b4) = "C" ↔ scoreOf b1 b2 b3 b4 ≤ 2) := by
  cases b1 <;> cases b2 <;> cases b3 <;> cases b4 <;> decide

/-- Claim C1: for every analysis, `grade_pick` returns a score in
{0,1,2,3,4} equal to the number of passing checks, and the grade is "A" iff
score ≥ 4, "B" iff score = 3, and "C" iff score ≤ 2. -/
theorem grade_pick_score_grade (a : Analysis) :
    (grade_pick a).score ≤ 4 ∧
    (grade_pick a).score =
      scoreOf (check_edge a).1 (check_line_movement a.signals.line_movement).1
        (check_sharp a.signals.bet_vs_money_divergence).1
        (check_conflict a.signals.sharp_signals).1 ∧
    ((grade_pick a).grade = "A" ↔ 4 ≤ (grade_pick a).score) ∧
    ((grade_pick a).grade = "B" ↔ (grade_pick a).score = 3) ∧
    ((grade_pick a).grade = "C" ↔ (grade_pick a).score ≤ 2) := by
  have h := gradeOf_scoreOf_spec (check_edge a).1
    (check_line_movement a.signals.line_movement).1
    (check_sharp a.signals.bet_vs_money_divergence).1
    (check_conflict a.signals.sharp_signals).1
  exact ⟨h.1, rfl, h.2.1, h.2.2.1, h.2.2.2⟩

/-- Claim C2: `kelly_fraction` returns 0 on invalid inputs
(`p ≤ 0`, `p ≥ 1`, `odds ≤ 1`); otherwise, with `b = odds - 1`, `q = 1 - p`
and `kelly = (p·b - q)/b`, it returns 0 when `kelly ≤ 0` and
`min(fraction·kelly, 1)` when `kelly > 0`. -/
theorem kelly_fraction_spec (p odds f : ℚ) :
    (p ≤ 0 ∨ 1 ≤ p ∨ odds ≤ 1 → kelly_fraction p odds f = 0) ∧
    (0 < p → p < 1 → 1 < odds →
      ((p * (odds - 1) - (1 - p)) / (odds - 1) ≤ 0 → kelly_fraction p odds f = 0) ∧
      (0 < (p * (odds - 1) - (1 - p)) / (odds - 1) →
        kelly_fraction p odds f =
          min (f * ((p * (odds - 1) - (1 - p)) / (odds - 1))) 1)) := by
  constructor
  · intro h
    simp only [kelly_fraction, if_pos h]
  · intro h1 h2 h3
    have hcond : ¬(p ≤ 0 ∨ 1 ≤ p ∨ odds ≤ 1) := by
      push_neg
      exact ⟨h1, h2, h3⟩
    constructor
    · intro hk
      simp only [kelly_fraction, if_neg hcond, if_pos hk]
    · intro hk
      simp only [kelly_fraction, if_neg hcond, if_neg (not_le.mpr hk)]

/-- Witness for C2: a strong-edge input takes the `min(fraction·kelly, 1)`
branch. -/
theorem kelly_fraction_spec_witness :
    kelly_fraction (3/5) 2 (1/10) =
      min ((1/10) * (((3/5) * (2 - 1) - (1 - 3/5)) / (2 - 1))) 1 :=
  ((kelly_fraction_spec (3/5) 2 (1/10)).2 (by norm_num) (by norm_num)
    (by norm_num)).2 (by norm_num)

/-- Claim C10: `implied_probability` guards the division — any `odds ≤ 1`
yields 1 — so `edge_pct` is defined there too and equals
`round((p - 1)·100, 2)`. -/
theorem implied_probability_guard (odds : ℚ) (h : odds ≤ 1) :
    implied_probability odds = 1 ∧
    ∀ p, edge_pct p odds = round2 ((p - 1) * 100) := by
  constructor
  · simp only [implied_probability, if_pos h]
  · intro p
    simp only [edge_pct, implied_probability, if_pos h]

/-- Witness for C10 at `odds = 1/2`, `p = 3/4`. -/
theorem implied_probability_guard_witness :
    implied_probability (1/2) = 1 ∧
    edge_pct (3/4) (1/2) = round2 ((3/4 - 1) * 100) :=
  ⟨(implied_probability_guard (1/2) (by norm_num)).1,
   (implied_probability_guard (1/2) (by norm_num)).2 (3/4)⟩

/-- Counterexample to claim C3 as stated: `grade_adjusted_units` itself
applies no A-grade floor — at `p = 1/2`, `odds = 1.91` (no edge) it returns
0, strictly below 0.5, instead of `max(kelly_units(...), 0.5)`. -/
theorem grade_adjusted_units_no_A_floor :
    grade_adjusted_units "A" (1/2) (191/100) 5000 100 (1/20) (1/10) = 0 ∧
    grade_adjusted_units "A" (1/2) (191/100) 5000 100 (1/20) (1/10) < 1/2 ∧
    grade_adjusted_units "A" (1/2) (191/100) 5000 100 (1/20) (1/10) ≠
      max (kelly_units (1/2) (191/100) 5000 100 (1/20) (1/10)) (1/2) := by
  have h : grade_adjusted_units "A" (1/2) (191/100) 5000 100 (1/20) (1/10) = 0 := by
    norm_num [grade_adjusted_units, kelly_units, kelly_fraction, round2, roundHalfEven,
      show pyUpper "A" = "A" from by decide, show ("A" : String) ≠ "C" from by decide,
      show ("A" : String) ≠ "B" from by decide]
  have hk : kelly_units (1/2) (191/100) 5000 100 (1/20) (1/10) = 0 := by
    norm_num [kelly_units, kelly_fraction, round2, roundHalfEven]
  refine ⟨h, ?_, ?_⟩
  · rw [h]; norm_num
  · rw [h, hk]; norm_num

/-- Claim C3, amended: `grade_adjusted_units` returns 0 for grade C
unconditionally and applies no floor itself (A returns the raw
`kelly_units`, B the rounded half); the 0.5 / 0.25 floors are applied by
the caller in `run_decision_loop`, whose composed stake (`decision_units`)
does satisfy `max(kelly_units, 0.5)` (hence ≥ 0.5) for A,
`max(round(kelly_units·0.5, 2), 0.25)` for B, and 0 for C. -/
theorem grade_adjusted_units_pipeline (p odds bankroll unit m f : ℚ) :
    grade_adjusted_units "C" p odds bankroll unit m f = 0 ∧
    grade_adjusted_units "A" p odds bankroll unit m f =
      kelly_units p odds bankroll unit m f ∧
    grade_adjusted_units "B" p odds bankroll unit m f =
      round2 (kelly_units p odds bankroll unit m f * (1/2)) ∧
    decision_units "C" p odds bankroll unit = 0 ∧
    decision_units "A" p odds bankroll unit =
      max (kelly_units p odds bankroll unit (1/20) (1/10)) (1/2) ∧
    (1/2 : ℚ) ≤ decision_units "A" p odds bankroll unit ∧
    decision_units "B" p odds bankroll unit =
      max (round2 (kelly_units p odds bankroll unit (1/20) (1/10) * (1/2))) (1/4) := by
  have hC : grade_adjusted_units "C" p odds bankroll unit m f = 0 := by
    simp [grade_adjusted_units, show pyUpper "C" = "C" from by decide]
  have hA : ∀ m' f', grade_adjusted_units "A" p odds bankroll unit m' f' =
      kelly_units p odds bankroll unit m' f' := by
    intro m' f'
    simp [grade_adjusted_units, show pyUpper "A" = "A" from by decide,
      show ("A" : String) ≠ "C" from by decide, show ("A" : String) ≠ "B" from by decide]
  have hB : ∀ m' f', grade_adjusted_units "B" p odds bankroll unit m' f' =
      round2 (kelly_units p odds bankroll unit m' f' * (1/2)) := by
    intro m' f'
    simp [grade_adjusted_units, show pyUpper "B" = "B" from by decide,
      show ("B" : String) ≠ "C" from by decide]
  refine ⟨hC, hA m f, hB m f, ?_, ?_, ?_, ?_⟩
  · simp [decision_units, show ("C" : String) ≠ "A" from by decide,
      show ("C" : String) ≠ "B" from by decide]
  · simp [decision_units, hA]
  · simp [decision_units, hA]
  · simp [decision_units, hB, show ("B" : String) ≠ "A" from by decide]

/-- Counterexample to claim C4 as stated: when the sharp-money lookup fails
(no `bet_vs_money_divergence` in the bundle) the reasoning entry is
"~ No sharp signal", which contains no '?', so not every parse/lookup
failure yields a '?' entry.  The other three checks of this input pass, so
the score is 3 (the failed lookup contributes 0). -/
theorem grade_pick_sharp_marker_counterexample :
    (grade_pick ⟨"2025-01-01", "AAA @ BBB", "BBB -3", .vStr "5" (some 5), "C",
        ⟨⟨some (.vNum 2), some (.vNum 3)⟩, none, [], none, none⟩⟩).reasons.get? 2 =
      some "~ No sharp signal" ∧
    strContains "?" "~ No sharp signal" = false ∧
    (grade_pick ⟨"2025-01-01", "AAA @ BBB", "BBB -3", .vStr "5" (some 5), "C",
        ⟨⟨some (.vNum 2), some (.vNum 3)⟩, none, [], none, none⟩⟩).score = 3 := by
  decide

/-- Claim C4, amended: `grade_pick` (a total function in this embedding —
the source wraps every parse in try/except) produces exactly four reasoning
strings, one per check in the fixed order edge, line-movement, sharp-money,
conflict; each check contributes 0 or 1 to the score; an edge parse failure
yields the '?'-marked entry with no increment, a line-movement failure one
of the two '?'-marked entries, and a missing sharp-money classification the
'~'-marked neutral entry with no increment. -/
theorem grade_pick_failure_handling (a : Analysis) :
    (grade_pick a).reasons =
      [(check_edge a).2, (check_line_movement a.signals.line_movement).2,
       (check_sharp a.signals.bet_vs_money_divergence).2,
       (check_conflict a.signals.sharp_signals).2] ∧
    (grade_pick a).reasons.length = 4 ∧
    (grade_pick a).score =
      (check_edge a).1.toNat + (check_line_movement a.signals.line_movement).1.toNat +
        (check_sharp a.signals.bet_vs_money_divergence).1.toNat +
        (check_conflict a.signals.sharp_signals).1.toNat ∧
    (pyFloat a.edge = none → check_edge a = (false, "? Model edge unknown")) ∧
    (∀ lm : LineMovement, (check_line_movement lm).1 = false →
      (check_line_movement lm).2 = "? Line movement data unavailable" ∨
      (check_line_movement lm).2 = "? Line movement unclear") ∧
    (a.signals.bet_vs_money_divergence = none →
      check_sharp a.signals.bet_vs_money_divergence = (false, "~ No sharp signal")) := by
  refine ⟨rfl, rfl, rfl, ?_, ?_, ?_⟩
  · intro h
    simp [check_edge, h]
  · intro lm h
    rcases lm with ⟨sc, so⟩
    rcases sc with _ | c <;> rcases so with _ | o
    · left; rfl
    · left; rfl
    · left; rfl
    · by_cases ht : pyTruthy c && pyTruthy o
      · rcases hc : pyFloat c with _ | qc
        · right
          simp [check_line_movement, ht, hc]
        · rcases ho : pyFloat o with _ | qo
          · right
            simp [check_line_movement, ht, hc, ho]
          · exfalso
            simp [check_line_movement, ht, hc, ho] at h
      · left
        simp [check_line_movement, ht]
  · intro h
    rw [h]
    decide

/-- Witness for the amended C4: each failure branch realized on concrete
inputs, through the theorem itself. -/
theorem grade_pick_failure_handling_witness :
    check_edge ⟨"d", "g", "b", .vStr "N/A" none, "C",
      ⟨⟨none, none⟩, none, [], none, none⟩⟩ = (false, "? Model edge unknown") ∧
    ((check_line_movement ⟨none, none⟩).2 = "? Line movement data unavailable" ∨
      (check_line_movement ⟨none, none⟩).2 = "? Line movement unclear") ∧
    check_sharp none = (false, "~ No sharp signal") := by
  have h := grade_pick_failure_handling ⟨"d", "g", "b", .vStr "N/A" none, "C",
    ⟨⟨none, none⟩, none, [], none, none⟩⟩
  exact ⟨h.2.2.2.1 rfl, h.2.2.2.2.1 ⟨none, none⟩ rfl, h.2.2.2.2.2 rfl⟩

/-- Claim C5: `log_bet` writes exactly one grade record with result
"pending" and profit_loss 0, and exactly four signal records whose
`signal_name`s are exactly model_edge, line_movement, sharp_money,
public_perc_divergence, each with bet_result "pending" and notes equal to
the pick's grade letter. -/
theorem log_bet_rows (a : Analysis) (units : ℚ) :
    (log_bet a units).1.result = "pending" ∧
    (log_bet a units).1.profit_loss = 0 ∧
    (log_bet a units).2.length = 4 ∧
    (log_bet a units).2.map SignalRow.signal_name =
      ["model_edge", "line_movement", "sharp_money", "public_perc_divergence"] ∧
    ∀ r ∈ (log_bet a units).2, r.bet_result = "pending" ∧ r.notes = a.grade := by
  refine ⟨rfl, rfl, rfl, rfl, ?_⟩
  intro r hr
  simp only [log_bet, log_signal_performance, List.mem_cons, List.not_mem_nil,
    or_false] at hr
  rcases hr with rfl | rfl | rfl | rfl <;> exact ⟨rfl, rfl⟩

/-- Witness for C5: the model-edge row of a concrete A-graded pick. -/
theorem log_bet_rows_witness :
    (⟨"2025-01-02", "CCC @ DDD", "DDD -2", "model_edge", "Unknown",
        "pending", "A"⟩ : SignalRow).bet_result = "pending" ∧
    (⟨"2025-01-02", "CCC @ DDD", "DDD -2", "model_edge", "Unknown",
        "pending", "A"⟩ : SignalRow).notes = "A" :=
  (log_bet_rows ⟨"2025-01-02", "CCC @ DDD", "DDD -2", .vStr "N/A" none, "A",
      ⟨⟨some (.vStr "x" none), some (.vNum 3)⟩, some "Sharp Action", [], none, none⟩⟩
    1).2.2.2.2
    ⟨"2025-01-02", "CCC @ DDD", "DDD -2", "model_edge", "Unknown", "pending", "A"⟩
    (by decide)

/-- Claim C8: the grade row and all four signal rows written for one
analyzed pick carry the identical (date, game, bet-description) triple, and
the performance joiner keys its settlement dict by the same three fields —
so a signal row written for a pick always finds the grade row written in the
same `log_bet` call, whatever else is in the grade file. -/
theorem join_key_consistency (a : Analysis) (units : ℚ) (res : String) :
    gradeKey (update_grade_tracker a units) = (a.date, a.game, a.pick_desc) ∧
    (∀ r ∈ log_signal_performance a res, sigKey r = (a.date, a.game, a.pick_desc)) ∧
    (∀ others : List GradeRow, ∀ r ∈ log_signal_performance a res,
      dictGet (load_grade_results (others ++ [update_grade_tracker a units]))
        (sigKey r) = some "pending") := by
  have hkey : ∀ r ∈ log_signal_performance a res,
      sigKey r = (a.date, a.game, a.pick_desc) := by
    intro r hr
    simp only [log_signal_performance, List.mem_cons, List.not_mem_nil,
      or_false] at hr
    rcases hr with rfl | rfl | rfl | rfl <;> rfl
  refine ⟨rfl, hkey, ?_⟩
  intro others r hr
  rw [hkey r hr]
  simp [load_grade_results, dictGet, List.reverse_append, update_grade_tracker,
    gradeKey, List.find?_cons,
    show pyLower (pyStrip "pending") = "pending" from by decide]

/-- Witness for C8: a concrete B-pick's sharp-money row joins to the grade
row written in the same `log_bet` call. -/
theorem join_key_consistency_witness :
    dictGet (load_grade_results ([] ++
        [update_grade_tracker ⟨"2025-01-03", "EEE @ FFF", "FFF +1",
          .vStr "2" (some 2), "B",
          ⟨⟨none, none⟩, some "Aligned", [], none, none⟩⟩ 2]))
      (sigKey ⟨"2025-01-03", "EEE @ FFF", "FFF +1", "sharp_money", "Aligned",
        "pending", "B"⟩) = some "pending" :=
  (join_key_consistency ⟨"2025-01-03", "EEE @ FFF", "FFF +1",
      .vStr "2" (some 2), "B", ⟨⟨none, none⟩, some "Aligned", [], none, none⟩⟩
    2 "pending").2.2 []
    ⟨"2025-01-03", "EEE @ FFF", "FFF +1", "sharp_money", "Aligned",
      "pending", "B"⟩ (by decide)

/-- Counterexample to claim C6 as stated: a signal row whose own
`bet_result` is "push" — neither "win" nor "loss" — is NOT resolved through
the settlement lookup: the loop keeps any non-empty, non-"pending" value, so
even though the settlement for its key says "win", the row resolves to
"push" and is dropped (0 wins, 0 total) instead of counting as a win. -/
theorem resolve_result_keeps_push :
    resolve_result [(("2025-01-04", "GGG @ HHH", "HHH ML"), "win")]
      ⟨"2025-01-04", "GGG @ HHH", "HHH ML", "sharp_money", "Sharp Action",
        "push", "A"⟩ = "push" ∧
    dictGet [(("2025-01-04", "GGG @ HHH", "HHH ML"), "win")]
      (sigKey ⟨"2025-01-04", "GGG @ HHH", "HHH ML", "sharp_money",
        "Sharp Action", "push", "A"⟩) = some "win" ∧
    total_seen [(("2025-01-04", "GGG @ HHH", "HHH ML"), "win")]
      [⟨"2025-01-04", "GGG @ HHH", "HHH ML", "sharp_money", "Sharp Action",
        "push", "A"⟩] "sharp_money" "Sharp Action" = 0 ∧
    total_wins [(("2025-01-04", "GGG @ HHH", "HHH ML"), "win")]
      [⟨"2025-01-04", "GGG @ HHH", "HHH ML", "sharp_money", "Sharp Action",
        "push", "A"⟩] "sharp_money" "Sharp Action" = 0 := by
  decide

/-- Claim C6, amended: the joiner keeps a record's own `bet_result` whenever
it is non-empty and not "pending" (in particular whenever it is "win" or
"loss"), and only otherwise falls back to the settlement lookup keyed by
(date, game, bet) with default "pending"; any row whose resolved result is
neither "win" nor "loss" contributes to neither wins nor total (never
counted as a loss), wins never exceed total, and per group
winRate = 100·wins/total, with 0 when total = 0. -/
theorem analyze_signals_spec
    (gr : List ((String × String × String) × String)) (rows : List SignalRow)
    (r : SignalRow) (sig dir : String) :
    (r.bet_result ≠ "" → r.bet_result ≠ "pending" →
      resolve_result gr r = r.bet_result) ∧
    (r.bet_result = "" ∨ r.bet_result = "pending" →
      resolve_result gr r = (dictGet gr (sigKey r)).getD "pending") ∧
    (isSettled gr r = false →
      total_seen gr (r :: rows) sig dir = total_seen gr rows sig dir ∧
      total_wins gr (r :: rows) sig dir = total_wins gr rows sig dir) ∧
    total_wins gr rows sig dir ≤ total_seen gr rows sig dir ∧
    (total_seen gr rows sig dir = 0 → win_rate gr rows sig dir = 0) ∧
    (total_seen gr rows sig dir ≠ 0 →
      win_rate gr rows sig dir =
        100 * (total_wins gr rows sig dir : ℚ) / (total_seen gr rows sig dir : ℚ)) := by
  refine ⟨?_, ?_, ?_, ?_, ?_, ?_⟩
  · intro h1 h2
    simp only [resolve_result, if_neg (by tauto : ¬(r.bet_result = "" ∨ r.bet_result = "pending"))]
  · intro h
    simp only [resolve_result, if_pos h]
  · intro h
    constructor
    · simp only [total_seen, List.filter_cons]
      rw [if_neg]
      simp [h]
    · simp only [total_wins, List.filter_cons]
      rw [if_neg]
      intro hcon
      simp only [Bool.and_eq_true, beq_iff_eq] at hcon
      have : isSettled gr r = true := by
        simp only [isSettled, Bool.or_eq_true, beq_iff_eq]
        exact Or.inl hcon.2
      rw [h] at this
      exact Bool.false_ne_true this
  · refine List.Sublist.length_le (List.monotone_filter_right _ ?_)
    intro x hx
    simp only [Bool.and_eq_true, beq_iff_eq] at hx ⊢
    refine ⟨hx.1, ?_⟩
    simp only [isSettled, Bool.or_eq_true, beq_iff_eq]
    exact Or.inl hx.2
  · intro h
    simp only [win_rate, if_pos h]
  · intro h
    simp only [win_rate, if_neg h]

/-- Witness for the amended C6: a settled "win" row keeps its own result and
yields a 100% win rate for its group. -/
theorem analyze_signals_spec_witness :
    resolve_result [] ⟨"2025-01-05", "III @ JJJ", "JJJ -4", "model_edge",
      "Edge >= 3%", "win", "A"⟩ = "win" ∧
    win_rate [] [⟨"2025-01-05", "III @ JJJ", "JJJ -4", "model_edge",
      "Edge >= 3%", "win", "A"⟩] "model_edge" "Edge >= 3%" =
      100 * ((1 : ℕ) : ℚ) / ((1 : ℕ) : ℚ) := by
  have h := analyze_signals_spec []
    [⟨"2025-01-05", "III @ JJJ", "JJJ -4", "model_edge", "Edge >= 3%", "win", "A"⟩]
    ⟨"2025-01-05", "III @ JJJ", "JJJ -4", "model_edge", "Edge >= 3%", "win", "A"⟩
    "model_edge" "Edge >= 3%"
  refine ⟨h.1 (by decide) (by decide), ?_⟩
  have h6 := h.2.2.2.2.2 (by decide)
  rw [h6]
  norm_num [show total_wins []
    [⟨"2025-01-05", "III @ JJJ", "JJJ -4", "model_edge", "Edge >= 3%", "win", "A"⟩]
    "model_edge" "Edge >= 3%" = 1 from by decide,
    show total_seen []
    [⟨"2025-01-05", "III @ JJJ", "JJJ -4", "model_edge", "Edge >= 3%", "win", "A"⟩]
    "model_edge" "Edge >= 3%" = 1 from by decide]

/-- Claim C7 fails on the code: for a pick quoted at American odds "-110"
(`asFloat = -110`, `asAmerican = -110`) with edge "6", `run_decision_loop`
appends 0.63 units to the ledger, but `calculate_kelly_units` — used by
`update_tracker_units` to patch the source row's stake — parses the odds
with `float()` first, takes decimal odds −110, gets Kelly 0 (odds ≤ 1) and
patches only the 0.5 A-floor.  The two writes of the same pick disagree. -/
theorem ledger_patch_stake_mismatch :
    loop_units_A (some ⟨some (-110), some (-110)⟩) (.vStr "6" (some 6)) 5000 100 =
      63/100 ∧
    calculate_kelly_units (some ⟨some (-110), some (-110)⟩) (.vStr "6" (some 6))
      "A" 5000 100 = 1/2 ∧
    (63/100 : ℚ) ≠ 1/2 := by
  refine ⟨?_, ?_, by norm_num⟩
  · norm_num [loop_units_A, loop_dec_odds, loop_prob, decision_units,
      grade_adjusted_units, kelly_units, kelly_fraction, american_to_decimal,
      round2, roundHalfEven, pyFloat,
      show pyUpper "A" = "A" from by decide, show ("A" : String) ≠ "C" from by decide,
      show ("A" : String) ≠ "B" from by decide]
  · norm_num [calculate_kelly_units, calc_dec_odds, calc_prob, kelly_fraction,
      round2, roundHalfEven, pyFloat, pyTruthy]

/-- Claim C9: for fixed odds > 1 and a fixed Kelly fraction,
`kelly_fraction` is non-decreasing in `p` on the region where it is
positive. -/
theorem kelly_fraction_mono (odds f p₁ p₂ : ℚ) (hodds : 1 < odds)
    (hp : p₁ ≤ p₂) (h1 : 0 < kelly_fraction p₁ odds f)
    (h2 : 0 < kelly_fraction p₂ odds f) :
    kelly_fraction p₁ odds f ≤ kelly_fraction p₂ odds f := by
  have hb : (0 : ℚ) < odds - 1 := by linarith
  have key : ∀ p, 0 < kelly_fraction p odds f →
      0 < (p * (odds - 1) - (1 - p)) / (odds - 1) ∧
      kelly_fraction p odds f =
        min (f * ((p * (odds - 1) - (1 - p)) / (odds - 1))) 1 := by
    intro p hpos
    by_cases hc : p ≤ 0 ∨ 1 ≤ p ∨ odds ≤ 1
    · simp only [kelly_fraction, if_pos hc] at hpos
      exact absurd hpos (lt_irrefl 0)
    · by_cases hk : (p * (odds - 1) - (1 - p)) / (odds - 1) ≤ 0
      · simp only [kelly_fraction, if_neg hc, if_pos hk] at hpos
        exact absurd hpos (lt_irrefl 0)
      · exact ⟨lt_of_not_le hk, by simp only [kelly_fraction, if_neg hc, if_neg hk]⟩
  obtain ⟨hk1, he1⟩ := key p₁ h1
  obtain ⟨hk2, he2⟩ := key p₂ h2
  have hf : 0 < f := by
    rw [he1] at h1
    rcases lt_min_iff.mp h1 with ⟨hfk, -⟩
    rcases mul_pos_iff.mp hfk with ⟨hfpos, -⟩ | ⟨-, hkneg⟩
    · exact hfpos
    · exact absurd hk1 (not_lt.mpr hkneg.le)
  have hkmono : (p₁ * (odds - 1) - (1 - p₁)) / (odds - 1) ≤
      (p₂ * (odds - 1) - (1 - p₂)) / (odds - 1) := by
    apply div_le_div_of_nonneg_right _ hb.le
    nlinarith
  rw [he1, he2]
  exact min_le_min (mul_le_mul_of_nonneg_left hkmono hf.le) le_rfl

/-- Witness for C9 at `odds = 2`, `f = 1/10`, `p₁ = 11/20 ≤ p₂ = 3/5`. -/
theorem kelly_fraction_mono_witness :
    kelly_fraction (11/20) 2 (1/10) ≤ kelly_fraction (3/5) 2 (1/10) :=
  kelly_fraction_mono 2 (1/10) (11/20) (3/5) (by norm_num) (by norm_num)
    (by norm_num [kelly_fraction]) (by norm_num [kelly_fraction])

end AutoBetTracker
